import Mathlib

/-!
Verification development for the japanese-real-estate-scraping crawler core.

The Python sources under `crawlers/` are shallowly embedded: dictionaries
become insertion-ordered association lists, the Mongo collection becomes a
list of such dictionaries, `requests` outcomes and parsed HTML become
explicit data fed to the embedded functions, and Python exceptions become
an `Except` error channel.  External services (DeepL translation, the FX
rate, image downloads, uuid generation) are parameters of the embeddings.
-/

/-- Python runtime values as they occur in the crawlers' `listing_data`
dictionaries and return statements. -/
inductive PyVal where
  | noneV
  | boolV (b : Bool)
  | strV (s : String)
  | numV (q : ℚ)
  | listV (xs : List PyVal)
  | tupleV (xs : List PyVal)
  | timeV
deriving Repr

/-- Python exceptions raised by the embedded code. -/
inductive PyErr where
  | attributeError
  | keyError (key : String)
  | typeError
  | valueError
  | indexError
deriving Repr, DecidableEq

/-- Python truthiness (`if x:`) for the values above: `None` and empty
strings/lists/tuples and zero are falsy, everything else truthy. -/
def PyVal.truthy : PyVal → Bool
  | noneV => false
  | boolV b => b
  | strV s => !s.isEmpty
  | numV q => decide (q ≠ 0)
  | listV xs => !xs.isEmpty
  | tupleV xs => !xs.isEmpty
  | timeV => true

/-- Does a `PyVal` equal the given Python string? -/
def PyVal.isStr : PyVal → String → Bool
  | strV t, s => t = s
  | _, _ => false

/-- `None` for an absent optional string, the string itself otherwise. -/
def optStrToPy : Option String → PyVal
  | Option.none => PyVal.noneV
  | some s => PyVal.strV s

/-- A Python dict, as an insertion-ordered association list with unique keys. -/
abbrev PyDict := List (String × PyVal)

/-- Dict read: the value at a key, if present. -/
def dictGet (d : PyDict) (k : String) : Option PyVal :=
  match d with
  | [] => Option.none
  | (k', v) :: rest => if k' = k then some v else dictGet rest k

/-- Dict assignment `d[k] = v`: update in place if the key exists (its
position is retained, as in CPython), else append at the end. -/
def dictSet (d : PyDict) (k : String) (v : PyVal) : PyDict :=
  match d with
  | [] => [(k, v)]
  | (k', v') :: rest => if k' = k then (k, v) :: rest else (k', v') :: dictSet rest k v

/-- A site partition: one Mongo collection, as the list of its documents. -/
abbrev DB := List PyDict

/-- `collection.find_one({"link": link})`: the first document whose `link`
field is the given string. -/
def find_one_link (db : DB) (link : String) : Option PyDict :=
  db.find? (fun r =>
    match dictGet r "link" with
    | some v => v.isStr link
    | Option.none => false)

/-- Does a document carry the given `_id`? -/
def hasId (r : PyDict) (pid : String) : Bool :=
  match dictGet r "_id" with
  | some w => w.isStr pid
  | Option.none => false

/-- `collection.update_one({"_id": pid}, {"$set": {k: v}})`: set one field
on the first document whose `_id` is the given id. -/
def update_one_set (db : DB) (pid : String) (k : String) (v : PyVal) : DB :=
  match db with
  | [] => []
  | r :: rest =>
    if hasId r pid then dictSet r k v :: rest
    else r :: update_one_set rest pid k v

/-! ## The resilient fetcher

`fetch_with_backoff` appears with an identical body in `hatomark.py`
(lines 51-70, INITIAL_BACKOFF = 30), `sumai.py` (lines 30-49,
INITIAL_BACKOFF = 0.5), `updates/sumai.py`, `nifty_updates.py` and
`nifty_rentals.py`.  The outcome of each `requests.get` is an input. -/

/-- Outcome of one `requests.get(url, timeout=10)` call. -/
inductive FetchAttempt where
  | success (body : String)
  | httpStatus (code : Nat)
  | requestError
deriving Repr, DecidableEq

/-- Did the attempt return status 200? -/
def FetchAttempt.isSuccess : FetchAttempt → Bool
  | success _ => true
  | _ => false

/-- Observable behaviour of one `fetch_with_backoff` call: how many
`requests.get` attempts ran, the exclusive upper bound of each
`random.uniform(0, backoff)` sleep in order, and the returned value
(`response.text` on the first 200, else `None`). -/
structure FetchTrace where
  attempts : Nat
  sleepBounds : List ℚ
  result : Option String
deriving Repr, DecidableEq

/-- MAX_RETRIES = 5 in every crawler module. -/
def MAX_RETRIES : Nat := 5

/-- The `for attempt in range(MAX_RETRIES)` loop body: on 200 return the
text; otherwise log, sleep a jitter drawn from `[0, backoff)`, double the
backoff and continue.  After the loop, log and return `None`. -/
def fetchLoop (outcomes : Nat → FetchAttempt) :
    Nat → Nat → Nat → List ℚ → ℚ → FetchTrace
  | 0, _, a, s, _ => { attempts := a, sleepBounds := s, result := Option.none }
  | n + 1, i, a, s, backoff =>
    match outcomes i with
    | .success body => { attempts := a + 1, sleepBounds := s, result := some body }
    | _ => fetchLoop outcomes n (i + 1) (a + 1) (s ++ [backoff]) (backoff * 2)

/-- `fetch_with_backoff(url)`, with `initialBackoff` the module's
INITIAL_BACKOFF and `outcomes i` the result of the i-th `requests.get`. -/
def fetch_with_backoff (initialBackoff : ℚ) (outcomes : Nat → FetchAttempt) : FetchTrace :=
  fetchLoop outcomes MAX_RETRIES 0 0 [] initialBackoff

/-- hatomark.py line 19. -/
def INITIAL_BACKOFF_hatomark : ℚ := 30

/-- sumai.py line 20. -/
def INITIAL_BACKOFF_sumai : ℚ := 1/2

/-! ## helpers.py: static label tables -/

/-- The `japanese_to_english` table of `get_table_field_english`
(helpers.py lines 81-123). -/
def tableFieldMap : List (String × String) :=
  [("物件種別", "Property Type"),
   ("売買価格", "Sale Price"),
   ("賃貸価格", "Rental Price"),
   ("物件所在地", "Property Location"),
   ("建物-構造", "Building - Structure"),
   ("建物-築年月", "Building - Construction Date"),
   ("建物-面積", "Building - Area"),
   ("建物-間取", "Building - Layout"),
   ("土地-面積", "Land - Area"),
   ("土地-地目", "Land - Land Use"),
   ("土地-用途地域", "Land - Zoning"),
   ("土地-都市計画", "Land - Urban Planning"),
   ("土地-接道", "Land - Road Access"),
   ("土地-権利", "Land - Title"),
   ("駐車場", "Parking"),
   ("交通", "Transportation"),
   ("生活環境", "Living Environment"),
   ("設備-電気", "Utilities - Electricity"),
   ("設備-給湯", "Utilities - Hot Water"),
   ("設備-水道", "Utilities - Water Supply"),
   ("設備-排水", "Utilities - Drainage"),
   ("設備-トイレ", "Utilities - Toilet"),
   ("増築・リフォーム歴", "Renovation History"),
   ("補修必要程度", "Repair Needs"),
   ("補修費負担", "Repair Cost Responsibility"),
   ("補修必要内容", "Repair Details"),
   ("利用状況", "Usage Status"),
   ("付帯物件・その他", "Other Property Features"),
   ("管理費・自治会費・税金等", "Management Fees, Local Dues, Taxes, etc."),
   ("敷金・礼金・仲介手数料等", "Deposit, Key Money, Agent Fees, etc."),
   ("特記事項", "Special Notes"),
   ("備考", "Remarks"),
   ("参照URL", "Reference URL"),
   ("物件番号", "Property ID"),
   ("取引態様", "Transaction Type"),
   ("事業者名", "Business Name"),
   ("事業者所在地", "Business Address"),
   ("事業者連絡先", "Business Contact"),
   ("掲載日", "Listing Date"),
   ("掲載期限", "Listing Expiry"),
   ("直通メールフォーム", "Direct Contact Form")]

/-- First value bound to a key in a static table (CPython dict lookup;
the source tables bind each key once, so first = only). -/
def tableLookup (tbl : List (String × String)) (k : String) : Option String :=
  match tbl with
  | [] => Option.none
  | (k', v) :: rest => if k' = k then some v else tableLookup rest k

/-- `get_table_field_english(field)` (helpers.py 80-125): a bare dict
subscript, so an unmapped label raises `KeyError`. -/
def get_table_field_english (field : String) : Except PyErr String :=
  match tableLookup tableFieldMap field with
  | some v => Except.ok v
  | Option.none => Except.error (PyErr.keyError field)

/-- The table of `get_property_type` (helpers.py 129-135). -/
def propertyTypeMap : List (String × String) :=
  [("新築一戸建て", "Newly Constructed Detached House"),
   ("中古一戸建て", "Used Detached House"),
   ("土地・売地", "Land for Sale"),
   ("新築マンション", "Newly Constructed Apartments"),
   ("中古マンション", "Used Apartments")]

/-- `get_property_type(property_type)` (helpers.py 128-137); bare dict
subscript, unmapped value raises `KeyError`. -/
def get_property_type (propertyType : String) : Except PyErr String :=
  match tableLookup propertyTypeMap propertyType with
  | some v => Except.ok v
  | Option.none => Except.error (PyErr.keyError propertyType)

/-- The table of `get_area_label` (helpers.py 141-152).  The source writes
the key "土地面積" twice with the same value; a Python dict literal keeps
one binding. -/
def areaLabelMap : List (String × String) :=
  [("土地面積", "Land - Area"),
   ("建ぺい率", "Building Coverage Ratio"),
   ("容積率", "Volume Ratio"),
   ("間取り", "Building - Layout"),
   ("建物面積", "Building - Area"),
   ("築年月", "Building - Construction Date"),
   ("階建", "Building - Structure"),
   ("専有面積", "Building - Area"),
   ("所在階", "Building - Location Floor")]

/-- `get_area_label(label)` (helpers.py 140-154); bare dict subscript. -/
def get_area_label (label : String) : Except PyErr String :=
  match tableLookup areaLabelMap label with
  | some v => Except.ok v
  | Option.none => Except.error (PyErr.keyError label)

/-! ## helpers.py: extract_yen_amount / convert_to_usd

`re.search(r'([\d.]+)\s*(million|thousand)?\s*yen', cleaned)` is embedded
as a leftmost-match scanner.  The character classes cannot overlap (`[\d.]`
versus letters versus whitespace), so greedy maximal munch with a single
backtracking point at the optional unit group is exact for this regex. -/

/-- Python `str.lower()` (ASCII case mapping suffices for the embedded
inputs). -/
def pyLower (s : String) : String := String.mk (s.toList.map Char.toLower)

/-- Python `str.replace(",", "")`: drop every comma. -/
def stripCommas (s : String) : String := String.mk (s.toList.filter (fun c => c ≠ ','))

/-- Python `str.strip()`: drop whitespace at both ends. -/
def pyStrip (s : String) : String :=
  String.mk (((s.toList.dropWhile Char.isWhitespace).reverse.dropWhile Char.isWhitespace).reverse)

/-- Python `str.split(sep)` for a one-character separator. -/
def pySplit (s : String) (sep : Char) : List String :=
  (s.toList.splitOn sep).map String.mk

/-- Python `needle in hay` on strings. -/
def listContainsSub (needle : List Char) : List Char → Bool
  | [] => needle.isEmpty
  | c :: rest => needle.isPrefixOf (c :: rest) || listContainsSub needle rest

/-- Python `needle in hay` on strings. -/
def strContainsSub (hay needle : String) : Bool := listContainsSub needle.toList hay.toList

/-- Is the character matched by `[\d.]`? -/
def isDigitOrDot (c : Char) : Bool := c.isDigit || c = '.'

/-- Maximal `[\d.]+` run at the head, and the remainder. -/
def takeNumRun (cs : List Char) : List Char × List Char :=
  match cs with
  | [] => ([], [])
  | c :: rest =>
    if isDigitOrDot c then
      let (run, rem) := takeNumRun rest
      (c :: run, rem)
    else ([], c :: rest)

/-- `\s*`: drop leading whitespace. -/
def skipSpaces (cs : List Char) : List Char := cs.dropWhile Char.isWhitespace

/-- Try to match `([\d.]+)\s*(million|thousand)?\s*yen` anchored at the
current position; yields (group 1, group 2). -/
def matchYenHere (cs : List Char) : Option (String × Option String) :=
  let (numRun, rest) := takeNumRun cs
  if numRun.isEmpty then Option.none
  else
    let rest1 := skipSpaces rest
    let afterUnit : Option (String × List Char) :=
      if "million".toList.isPrefixOf rest1 then some ("million", rest1.drop 7)
      else if "thousand".toList.isPrefixOf rest1 then some ("thousand", rest1.drop 8)
      else Option.none
    match afterUnit with
    | some (u, rest2) =>
      if "yen".toList.isPrefixOf (skipSpaces rest2) then
        some (String.mk numRun, some u)
      else if "yen".toList.isPrefixOf rest1 then
        -- backtrack: the optional unit group matches the empty string
        some (String.mk numRun, Option.none)
      else Option.none
    | Option.none =>
      if "yen".toList.isPrefixOf rest1 then some (String.mk numRun, Option.none)
      else Option.none

/-- `re.search`: try each start position left to right. -/
def searchYen : List Char → Option (String × Option String)
  | [] => Option.none
  | c :: cs =>
    match matchYenHere (c :: cs) with
    | some r => some r
    | Option.none => searchYen cs

/-- Numeric value of a digit run; `Option.none` if a non-digit occurs. -/
def digitsVal? (cs : List Char) : Option ℕ :=
  cs.foldl
    (fun acc c =>
      match acc with
      | Option.none => Option.none
      | some n => if c.isDigit then some (n * 10 + (c.toNat - 48)) else Option.none)
    (some 0)

/-- Python `float(s)` for a string drawn from `[\d.]+`: digits with at
most one dot and at least one digit.  Values are modelled exactly in ℚ
(the claim's inputs are exactly representable as doubles).  An invalid
literal such as "1.2.3" or "." raises `ValueError`. -/
def parsePyFloat (s : String) : Option ℚ :=
  match s.toList.splitOn '.' with
  | [ip] =>
    if ip.isEmpty then Option.none
    else (digitsVal? ip).map (fun n => (n : ℚ))
  | [ip, fp] =>
    if ip.isEmpty && fp.isEmpty then Option.none
    else
      match digitsVal? ip, digitsVal? fp with
      | some n, some f => some ((n : ℚ) + (f : ℚ) / (10 : ℚ) ^ fp.length)
      | _, _ => Option.none
  | _ => Option.none

/-- Python `int(x)` on a float: truncation toward zero. -/
def pyInt (q : ℚ) : ℤ := Int.tdiv q.num q.den

/-- `extract_yen_amount(text)` (helpers.py 157-173): lower-case, strip
commas, search for the amount pattern; `None` when no match; scale by the
unit word; truncate to int.  `float` on a malformed group raises. -/
def extract_yen_amount (text : String) : Except PyErr (Option ℤ) :=
  let cleaned := stripCommas (pyLower text)
  match searchYen cleaned.toList with
  | Option.none => Except.ok Option.none
  | some (g1, unit) =>
    match parsePyFloat g1 with
    | Option.none => Except.error PyErr.valueError
    | some number =>
      let number :=
        if unit = some "million" then number * 1000000
        else if unit = some "thousand" then number * 1000
        else number
      Except.ok (some (pyInt number))

/-- Floor of a rational as an integer (used by round-half-even). -/
def ratFloor (q : ℚ) : ℤ := Int.fdiv q.num q.den

/-- Python `round(x, 2)`: round half to even at two decimals (modelled
exactly over ℚ). -/
def round2 (q : ℚ) : ℚ :=
  let x := q * 100
  let f := ratFloor x
  let r := x - f
  let n : ℤ :=
    if r < 1/2 then f
    else if 1/2 < r then f + 1
    else if f % 2 = 0 then f else f + 1
  (n : ℚ) / 100

/-- `convert_to_usd(yen_text)` (helpers.py 176-179) with the external FX
rate `fx : ℚ → ℚ` standing for `CurrencyConverter().convert(·, JPY, USD)`.
Passing `None` raises inside `extract_yen_amount` at `text.lower()`; a
non-match gives `extract_yen_amount = None` and `c.convert(None, ...)`
raises `TypeError`. -/
def convert_to_usd (fx : ℚ → ℚ) (yenText : PyVal) : Except PyErr PyVal :=
  match yenText with
  | PyVal.strV s =>
    match extract_yen_amount s with
    | Except.error e => Except.error e
    | Except.ok Option.none => Except.error PyErr.typeError
    | Except.ok (some yen) => Except.ok (PyVal.numV (round2 (fx yen)))
  | _ => Except.error PyErr.attributeError

/-- `save_image(image_url, filename, folder)` (helpers.py 20-35): on a 200
download the bytes are written and the joined path returned; any other
status or exception logs and returns `None`.  `ok` is the download
outcome per url. -/
def save_image (ok : String → Bool) (imageUrl fileName folder : String) : Option String :=
  if ok imageUrl then some (folder ++ "/" ++ fileName) else Option.none

/-! ## The datetime name bindings

`sumai.py` line 12 does `from datetime import datetime`, binding the NAME
`datetime` to the `datetime` CLASS; `hatomark.py` line 13 and `nifty.py`
line 10 do `import datetime`, binding it to the MODULE.  The class has no
`timezone` attribute; the module does.  Attribute sets follow the Python
standard library documentation for the datetime module. -/

/-- Attributes of the `datetime.datetime` class. -/
def datetimeClassAttrs : List String :=
  ["min", "max", "resolution", "year", "month", "day", "hour", "minute",
   "second", "microsecond", "tzinfo", "fold", "today", "now", "utcnow",
   "fromtimestamp", "utcfromtimestamp", "fromordinal", "combine",
   "fromisoformat", "fromisocalendar", "strptime", "date", "time",
   "timetz", "replace", "astimezone", "utcoffset", "dst", "tzname",
   "timetuple", "utctimetuple", "toordinal", "timestamp", "weekday",
   "isoweekday", "isocalendar", "isoformat", "ctime", "strftime"]

/-- Top-level names of the `datetime` module. -/
def datetimeModuleAttrs : List String :=
  ["date", "time", "datetime", "timedelta", "tzinfo", "timezone",
   "MINYEAR", "MAXYEAR", "UTC"]

/-- Python attribute lookup: `AttributeError` when the name is absent. -/
def getattrCheck (attrs : List String) (name : String) : Except PyErr Unit :=
  if name ∈ attrs then Except.ok () else Except.error PyErr.attributeError

/-- `datetime.now(datetime.timezone.utc)` as written in sumai.py lines 89
and 175, where `datetime` is the class: the argument's inner lookup
`datetime.timezone` is evaluated first. -/
def sumaiEvalCreatedAt : Except PyErr PyVal :=
  match getattrCheck datetimeClassAttrs "timezone" with
  | Except.error e => Except.error e
  | Except.ok _ => Except.ok PyVal.timeV

/-- `datetime.datetime.now(datetime.timezone.utc)` as written in
hatomark.py line 208 and nifty.py line 156, where `datetime` is the
module. -/
def moduleEvalCreatedAt : Except PyErr PyVal :=
  match getattrCheck datetimeModuleAttrs "datetime" with
  | Except.error e => Except.error e
  | Except.ok _ =>
    match getattrCheck datetimeModuleAttrs "timezone" with
    | Except.error e => Except.error e
    | Except.ok _ => Except.ok PyVal.timeV

/-! ## sumai.py: the akiya.sumai.biz crawler

HTML parsing is abstracted to the data the BeautifulSoup selectors would
produce; everything from the duplicate gate onward follows `scrape_page`
(sumai.py lines 53-178) statement by statement.  Parameters: `translate`
for `translate_text` (DeepL), `fx` for the external FX rate inside
`convert_to_usd`, `save` for `save_image` applied to an image url with a
fresh uuid filename, `fresh` for the per-listing `uuid4()`. -/

/-- A `<td>` cell: its stripped text and, when it contains an `<a>`, that
anchor's href (used by the Reference URL branch). -/
structure STd where
  text : String
  ahref : Option String

/-- The parsed detail page of one sumai listing (sumai.py lines 104-160):
the entry title text, the rows of the details table (each row's `<td>`
list), and, when the `image50` div exists, its inner divs, each carrying
its anchor's href when it has one. -/
structure SumaiDetail where
  description : String
  rows : List (List STd)
  imageSection : Option (List (Option String))

/-- One `<article>` listing block: its entry-header anchor's href, and the
parsed detail page when `fetch_with_backoff(link)` returned a body
(`Option.none` models a falsy fetch result, sumai.py lines 99-102). -/
structure SumaiListing where
  link : String
  detail : Option SumaiDetail

/-- The outcome of fetching and parsing one index page (sumai.py lines
54-65): a falsy fetch returns False at once; a page without a
`div#content` makes `content.find_all` raise `AttributeError`; otherwise
the `<article>` blocks. -/
inductive SumaiPage where
  | fetchFail
  | noContent
  | listings (ls : List SumaiListing)

/-- Process the `<td>` cells of one table row (sumai.py lines 117-147):
positions 0/1 and, when present, 2/3 yield a field/value pair; the field
label goes through `get_table_field_english` (KeyError on unknown
labels), a truthy value through `translate_text`, and the Reference URL
field takes its anchor's href instead (`.find("a")` returning `None`
would raise on `.get`). -/
def sumaiProcessRow (translate : String → String) (d : PyDict) (tds : List STd) :
    Except PyErr PyDict :=
  match (match tds with
    | t0 :: t1 :: _ =>
      (match get_table_field_english t0.text with
       | Except.error e => Except.error e
       | Except.ok field =>
         let value := t1.text
         let value := if value ≠ "" then translate value else value
         if field = "Reference URL" then
           match t1.ahref with
           | Option.none => Except.error PyErr.attributeError
           | some href => Except.ok (dictSet d field (PyVal.strV href))
         else
           Except.ok (dictSet d field (PyVal.strV value)))
    | _ => Except.ok d) with
  | Except.error e => Except.error e
  | Except.ok d =>
    match tds with
    | _ :: _ :: t2 :: t3 :: _ =>
      (match get_table_field_english t2.text with
       | Except.error e => Except.error e
       | Except.ok field =>
         let value := t3.text
         let value := if value ≠ "" then translate value else value
         Except.ok (dictSet d field (PyVal.strV value)))
    | _ => Except.ok d

/-- Fold `sumaiProcessRow` over the table rows, propagating exceptions. -/
def sumaiProcessRows (translate : String → String) (d : PyDict) :
    List (List STd) → Except PyErr PyDict
  | [] => Except.ok d
  | row :: rest =>
    match sumaiProcessRow translate d row with
    | Except.error e => Except.error e
    | Except.ok d' => sumaiProcessRows translate d' rest

/-- The image loop (sumai.py lines 150-160): scan the `image50` inner
divs; at the first div holding an `<a>`, call `save_image` on its href,
append the result (even when it is `None`) and `break`. -/
def sumaiImagePaths (save : String → Option String) :
    List (Option String) → List (Option String)
  | [] => []
  | Option.none :: rest => sumaiImagePaths save rest
  | some href :: _ => [save href]

/-- The sale-price update (sumai.py lines 164-167): when a truthy
"Sale Price" is present, copy it to "Sale Price Yen" and replace it by
`convert_to_usd` of the displayed string. -/
def sumaiUpdateSalePrice (fx : ℚ → ℚ) (d : PyDict) : Except PyErr PyDict :=
  match dictGet d "Sale Price" with
  | some v =>
    if v.truthy then
      let d := dictSet d "Sale Price Yen" v
      match convert_to_usd fx v with
      | Except.error e => Except.error e
      | Except.ok usd => Except.ok (dictSet d "Sale Price" usd)
    else Except.ok d
  | Option.none => Except.ok d

/-- The prefecture derivation (sumai.py lines 169-173): when a truthy
"Property Location" is present, split it on commas; only when there are
MORE THAN TWO parts, store the last part stripped and lower-cased as
"Prefecture". -/
def sumaiStorePrefecture (d : PyDict) : PyDict :=
  match dictGet d "Property Location" with
  | some v =>
    if v.truthy then
      match v with
      | PyVal.strV s =>
        let locParts := pySplit s ','
        if locParts.length > 2 then
          dictSet d "Prefecture" (PyVal.strV (pyLower (pyStrip (locParts.getLastD ""))))
        else d
      | _ => d
    else d
  | Option.none => d

/-- Build the record for one new sumai listing from its fetched detail
page (sumai.py lines 72-73, 96, 104-176, stopping before `insert_one`).
The final `createdAt` assignment evaluates
`datetime.now(datetime.timezone.utc)`. -/
def sumaiProcessDetail (translate : String → String) (fx : ℚ → ℚ)
    (save : String → Option String) (pid : String) (link : String)
    (det : SumaiDetail) : Except PyErr PyDict :=
  let d : PyDict := [("_id", PyVal.strV pid)]
  let d := dictSet d "link" (PyVal.strV link)
  let d := dictSet d "description" (PyVal.strV (translate det.description))
  match sumaiProcessRows translate d det.rows with
  | Except.error e => Except.error e
  | Except.ok d =>
    match det.imageSection with
    | Option.none => Except.error PyErr.attributeError
    | some divs =>
      let d := dictSet d "images"
        (PyVal.listV ((sumaiImagePaths save divs).map optStrToPy))
      match sumaiUpdateSalePrice fx d with
      | Except.error e => Except.error e
      | Except.ok d =>
        let d := sumaiStorePrefecture d
        match sumaiEvalCreatedAt with
        | Except.error e => Except.error e
        | Except.ok ts => Except.ok (dictSet d "createdAt" ts)

/-- Result of one `scrape_page` call: the Python return value or the
exception that escaped, the collection afterwards, and the documents
inserted by this call. -/
structure ScrapeOut where
  result : Except PyErr PyVal
  db : DB
  inserted : List PyDict

/-- The `for listing in listings` loop of sumai's `scrape_page` (lines
71-176).  A known link logs, refreshes `createdAt` via `update_one` (the
argument `datetime.now(datetime.timezone.utc)` is evaluated first) and
then `continue`s — the `return False` is commented out ("temp solution
for initial scraping").  A failed detail fetch `continue`s.  Otherwise
the record is built and inserted. -/
def sumaiLoop (translate : String → String) (fx : ℚ → ℚ)
    (save : String → Option String) (fresh : Nat → String)
    (db : DB) (ins : List PyDict) (idx : Nat) :
    List SumaiListing → ScrapeOut
  | [] => ⟨Except.ok (PyVal.boolV true), db, ins⟩
  | l :: rest =>
    match find_one_link db l.link with
    | some existingDoc =>
      (match sumaiEvalCreatedAt with
       | Except.error e => ⟨Except.error e, db, ins⟩
       | Except.ok ts =>
         let db :=
           match dictGet existingDoc "_id" with
           | some (PyVal.strV pid) => update_one_set db pid "createdAt" ts
           | _ => db
         sumaiLoop translate fx save fresh db ins (idx + 1) rest)
    | Option.none =>
      match l.detail with
      | Option.none => sumaiLoop translate fx save fresh db ins (idx + 1) rest
      | some det =>
        match sumaiProcessDetail translate fx save (fresh idx) l.link det with
        | Except.error e => ⟨Except.error e, db, ins⟩
        | Except.ok d =>
          sumaiLoop translate fx save fresh (db ++ [d]) (ins ++ [d]) (idx + 1) rest

/-- sumai.py `scrape_page(page_num)` (lines 53-178) given the fetched and
parsed index page.  A falsy fetch returns `False`; a missing content div
raises; a page with no `<article>` blocks returns the TUPLE
`(False, "listings")` (line 69); otherwise the listing loop runs and the
function returns `True` when it completes. -/
def sumai_scrape_page (translate : String → String) (fx : ℚ → ℚ)
    (save : String → Option String) (fresh : Nat → String)
    (db : DB) (page : SumaiPage) : ScrapeOut :=
  match page with
  | SumaiPage.fetchFail => ⟨Except.ok (PyVal.boolV false), db, []⟩
  | SumaiPage.noContent => ⟨Except.error PyErr.attributeError, db, []⟩
  | SumaiPage.listings ls =>
    match ls with
    | [] => ⟨Except.ok (PyVal.tupleV [PyVal.boolV false, PyVal.strV "listings"]), db, []⟩
    | l :: rest => sumaiLoop translate fx save fresh db [] 0 (l :: rest)

/-! ## hatomark.py: the hatomarksite.com crawler -/

/-- Stable de-duplication preserving first-seen order
(`list(dict.fromkeys(...))`). -/
def dedupFirst [DecidableEq α] (seen : List α) : List α → List α
  | [] => []
  | x :: rest =>
    if x ∈ seen then dedupFirst seen rest
    else x :: dedupFirst (x :: seen) rest

/-- Stable insertion by `data-index` (Python `sorted` is stable). -/
def insertByIdx (p : Nat × String) : List (Nat × String) → List (Nat × String)
  | [] => [p]
  | q :: rest => if q.1 < p.1 then q :: insertByIdx p rest else p :: q :: rest

/-- Stable sort by `data-index` (Python `sorted(..., key=lambda x: x[0])`). -/
def sortByIdx : List (Nat × String) → List (Nat × String)
  | [] => []
  | p :: rest => insertByIdx p (sortByIdx rest)

/-- The image-gallery pipeline of hatomark's `scrape_page` (lines
210-226): keep the `slick-img` divs that have both a truthy `data-index`
attribute (its `int()` value is modelled directly) and an `<img>` (with
its `src`), de-duplicate `(index, src)` pairs preserving order, sort by
index, and take the urls. -/
def hatomarkCollectImages (slick : List (Option Nat × Option String)) : List String :=
  let images := slick.foldr
    (fun p acc =>
      match p with
      | (some i, some s) => (i, s) :: acc
      | _ => acc) []
  let uniqueImages := dedupFirst [] images
  let sortedImages := sortByIdx uniqueImages
  sortedImages.map Prod.snd

/-- The detail page of one hatomark listing (lines 179-193 and 210-217):
the extracted contact number, and the `slick-img` divs as
(data-index, img src) with either attribute possibly missing. -/
structure HDetail where
  contactNumber : Option String
  slickDivs : List (Option Nat × Option String)

/-- One `col-12` listing block of a hatomark index page: the box-footer
anchor's href, the index-page field texts (lines 113-171; `translate_text`
is applied in the embedding), the `<p>` texts of the info grid in order,
and the parsed detail page when `fetch_with_backoff(link)` was truthy. -/
structure HListing where
  link : String
  propertyType : String
  location : String
  transportation : List String
  infoDivs : List String
  detail : Option HDetail

/-- Outcome of fetching and parsing one hatomark index page (lines
74-90): falsy fetch → return False; missing list-table div → the
`find_all` call raises; else the listing blocks. -/
inductive HPage where
  | fetchFail
  | noContent
  | listings (ls : List HListing)

/-- Build the record for one new hatomark listing (lines 96-97, 111-238,
stopping before `insert_one`).  Index fields use positional `if
len(info_divs) >= k` guards, so absent positions become `None`.  The
`createdAt` expression is `datetime.datetime.now(datetime.timezone.utc)`
on the datetime MODULE.  Image save results are appended unconditionally
(lines 228-234). -/
def hatomarkProcessListing (translate : String → String) (fx : ℚ → ℚ)
    (save : String → Option String) (pid prefecture : String)
    (l : HListing) (det : HDetail) : Except PyErr PyDict :=
  let d : PyDict := [("_id", PyVal.strV pid)]
  let d := dictSet d "link" (PyVal.strV l.link)
  let propertyType := translate l.propertyType
  let location := translate l.location
  let transportation := String.intercalate " / " (l.transportation.map translate)
  let price := (l.infoDivs[0]?).map translate
  let buildingDate := (l.infoDivs[1]?).map translate
  let landArea := (l.infoDivs[2]?).map translate
  let buildingArea := (l.infoDivs[3]?).map translate
  let floors := (l.infoDivs[4]?).map translate
  let floorPlan := (l.infoDivs[5]?).map translate
  match convert_to_usd fx (optStrToPy price) with
  | Except.error e => Except.error e
  | Except.ok usd =>
    let d := dictSet d "Sale Price" usd
    let d := dictSet d "Sale Price Yen" (optStrToPy price)
    let d := dictSet d "Property Type" (PyVal.strV propertyType)
    let d := dictSet d "Property Location" (PyVal.strV location)
    let d := dictSet d "Transportation" (PyVal.strV transportation)
    let d := dictSet d "Building - Construction Date" (optStrToPy buildingDate)
    let d := dictSet d "Land - Area" (optStrToPy landArea)
    let d := dictSet d "Building - Area" (optStrToPy buildingArea)
    let d := dictSet d "Building - Structure" (optStrToPy floors)
    let d := dictSet d "Building - Layout" (optStrToPy floorPlan)
    let d := dictSet d "Contact Number" (optStrToPy det.contactNumber)
    let d := dictSet d "Prefecture" (PyVal.strV prefecture)
    match moduleEvalCreatedAt with
    | Except.error e => Except.error e
    | Except.ok ts =>
      let d := dictSet d "createdAt" ts
      let imageUrls := hatomarkCollectImages det.slickDivs
      let imagePaths := imageUrls.map save
      let d := dictSet d "images" (PyVal.listV (imagePaths.map optStrToPy))
      Except.ok d

/-- The `for listing in listings` loop of hatomark's `scrape_page` (lines
95-238): a known link returns `False` at once (lines 106-109); a falsy
detail fetch `continue`s (lines 174-177; the index-field extraction
before it is pure, so checking the detail first is behaviourally
identical); otherwise the record is built and inserted. -/
def hatomarkLoop (translate : String → String) (fx : ℚ → ℚ)
    (save : String → Option String) (fresh : Nat → String)
    (prefecture : String) (db : DB) (ins : List PyDict) (idx : Nat) :
    List HListing → ScrapeOut
  | [] => ⟨Except.ok (PyVal.boolV true), db, ins⟩
  | l :: rest =>
    match find_one_link db l.link with
    | some _ => ⟨Except.ok (PyVal.boolV false), db, ins⟩
    | Option.none =>
      match l.detail with
      | Option.none => hatomarkLoop translate fx save fresh prefecture db ins (idx + 1) rest
      | some det =>
        match hatomarkProcessListing translate fx save (fresh idx) prefecture l det with
        | Except.error e => ⟨Except.error e, db, ins⟩
        | Except.ok d =>
          hatomarkLoop translate fx save fresh prefecture (db ++ [d]) (ins ++ [d]) (idx + 1) rest

/-- hatomark.py `scrape_page(num, prefecture, page_num)` (lines 74-240)
given the fetched and parsed index page. -/
def hatomark_scrape_page (translate : String → String) (fx : ℚ → ℚ)
    (save : String → Option String) (fresh : Nat → String)
    (prefecture : String) (db : DB) (page : HPage) : ScrapeOut :=
  match page with
  | HPage.fetchFail => ⟨Except.ok (PyVal.boolV false), db, []⟩
  | HPage.noContent => ⟨Except.error PyErr.attributeError, db, []⟩
  | HPage.listings ls =>
    match ls with
    | [] => ⟨Except.ok (PyVal.boolV false), db, []⟩
    | l :: rest => hatomarkLoop translate fx save fresh prefecture db [] 0 (l :: rest)

/-! ## nifty.py: the myhome.nifty.com crawler

nifty.py line 8 imports `fetch_with_backoff` FROM `helpers` and calls it
as `status_code, html = fetch_with_backoff(url, logger)` (lines 44 and
122); `scrape_page` below embeds the function body given the parsed
outcome of such a fetch. -/

/-- The detail page of one nifty listing: the contact number extracted by
the `nifty`/`pitat` branches (lines 129-146), and the `div#summary`
thumbnail srcs when that div exists (lines 161-163; for a link containing
"nifty" a missing summary div makes `main_div.find_all` raise). -/
structure NDetail where
  contactNumber : Option String
  summary : Option (List String)

/-- One `<li>` listing block of a nifty index page: the anchor's href, the
property-type badge text, the price `<p>` text, the `<span>` texts of the
selected location/transportation box (lines 92-108), the (label, value)
text pairs of the area-info boxes (lines 111-119), and the parsed detail
page when the second fetch returned status 200. -/
structure NListing where
  href : String
  propertyType : String
  price : String
  locTransSpans : List String
  areaInfo : List (String × String)
  detail : Option NDetail

/-- Outcome of fetching and parsing one nifty index page (lines 43-58):
non-200 status → return False; missing `ul` → `content.find_all` raises;
else the `<li>` blocks. -/
inductive NPage where
  | non200
  | noContent
  | listings (ls : List NListing)

/-- Link normalization (lines 71-73): `link[0]` raises on an empty href;
a leading "/" is resolved against the site root. -/
def niftyNormalizeLink (href : String) : Except PyErr String :=
  match href.toList with
  | [] => Except.error PyErr.indexError
  | c :: _ =>
    if c = '/' then Except.ok ("https://myhome.nifty.com" ++ href)
    else Except.ok href

/-- The area-info loop (lines 111-119): each box's badge label goes
through `get_area_label` (KeyError on unknown labels) and the translated
value is stored under the mapped field. -/
def niftyAreaInfo (translate : String → String) (d : PyDict) :
    List (String × String) → Except PyErr PyDict
  | [] => Except.ok d
  | (label, value) :: rest =>
    match get_area_label label with
    | Except.error e => Except.error e
    | Except.ok field => niftyAreaInfo translate (dictSet d field (PyVal.strV (translate value))) rest

/-- The index-page part of one nifty listing after the duplicate gate
(lines 83-119): property type via `get_property_type`, translated price,
location/transportation from the span list (an empty span list raises
`IndexError` at `loc_trans[0]`), then the area-info fields.  Returns the
dict so far plus the values used later at lines 149-153. -/
def niftyIndexPart (translate : String → String) (d : PyDict) (l : NListing) :
    Except PyErr (PyDict × String × String × String × Option String) :=
  match get_property_type l.propertyType with
  | Except.error e => Except.error e
  | Except.ok propertyType =>
    let price := translate l.price
    match (match l.locTransSpans with
      | [] => Except.error PyErr.indexError
      | [s0] => Except.ok (translate s0, (Option.none : Option String))
      | s0 :: s1 :: _ => Except.ok (translate s1, some (translate s0))) with
    | Except.error e => Except.error e
    | Except.ok (location, transportation) =>
      match niftyAreaInfo translate d l.areaInfo with
      | Except.error e => Except.error e
      | Except.ok d => Except.ok (d, propertyType, price, location, transportation)

/-- Finish one new nifty listing from its detail page (lines 129-182,
stopping before `insert_one`): the contact number, the field assignments
of lines 149-156, and the image pipeline of lines 158-180 — only links
containing "nifty" are scraped for images, thumbnail srcs are
de-duplicated preserving order, and every `save_image` result is appended
unconditionally. -/
def niftyFinish (fx : ℚ → ℚ) (save : String → Option String)
    (link prefecture : String) (d : PyDict)
    (propertyType price location : String) (transportation : Option String)
    (det : NDetail) : Except PyErr PyDict :=
  match convert_to_usd fx (PyVal.strV price) with
  | Except.error e => Except.error e
  | Except.ok usd =>
    let d := dictSet d "Sale Price" usd
    let d := dictSet d "Sale Price Yen" (PyVal.strV price)
    let d := dictSet d "Property Type" (PyVal.strV propertyType)
    let d := dictSet d "Property Location" (PyVal.strV location)
    let d := dictSet d "Transportation" (optStrToPy transportation)
    let d := dictSet d "Contact Number" (optStrToPy det.contactNumber)
    let d := dictSet d "Prefecture" (PyVal.strV prefecture)
    match moduleEvalCreatedAt with
    | Except.error e => Except.error e
    | Except.ok ts =>
      let d := dictSet d "createdAt" ts
      match (if strContainsSub link "nifty" then
          match det.summary with
          | Option.none => Except.error PyErr.attributeError
          | some srcs =>
            let imgUrls := dedupFirst [] srcs
            Except.ok (imgUrls.map save)
        else Except.ok ([] : List (Option String))) with
      | Except.error e => Except.error e
      | Except.ok imagePaths =>
        Except.ok (dictSet d "images" (PyVal.listV (imagePaths.map optStrToPy)))

/-- The `for listing in listings` loop of nifty's `scrape_page` (lines
63-182): normalize the link (may raise), stop with `False` on a known
link (lines 76-79), extract the index fields (may raise), `continue` on a
non-200 detail fetch (lines 122-125), else build and insert the record. -/
def niftyLoop (translate : String → String) (fx : ℚ → ℚ)
    (save : String → Option String) (fresh : Nat → String)
    (prefecture : String) (db : DB) (ins : List PyDict) (idx : Nat) :
    List NListing → ScrapeOut
  | [] => ⟨Except.ok (PyVal.boolV true), db, ins⟩
  | l :: rest =>
    match niftyNormalizeLink l.href with
    | Except.error e => ⟨Except.error e, db, ins⟩
    | Except.ok link =>
      match find_one_link db link with
      | some _ => ⟨Except.ok (PyVal.boolV false), db, ins⟩
      | Option.none =>
        let d : PyDict := [("_id", PyVal.strV (fresh idx))]
        let d := dictSet d "link" (PyVal.strV link)
        match niftyIndexPart translate d l with
        | Except.error e => ⟨Except.error e, db, ins⟩
        | Except.ok (d, propertyType, price, location, transportation) =>
          match l.detail with
          | Option.none => niftyLoop translate fx save fresh prefecture db ins (idx + 1) rest
          | some det =>
            match niftyFinish fx save link prefecture d propertyType price location transportation det with
            | Except.error e => ⟨Except.error e, db, ins⟩
            | Except.ok d =>
              niftyLoop translate fx save fresh prefecture (db ++ [d]) (ins ++ [d]) (idx + 1) rest

/-- nifty.py `scrape_page(prefecture, page_num)` (lines 42-184) given the
parsed outcome of the pair-destructuring fetch. -/
def nifty_scrape_page (translate : String → String) (fx : ℚ → ℚ)
    (save : String → Option String) (fresh : Nat → String)
    (prefecture : String) (db : DB) (page : NPage) : ScrapeOut :=
  match page with
  | NPage.non200 => ⟨Except.ok (PyVal.boolV false), db, []⟩
  | NPage.noContent => ⟨Except.error PyErr.attributeError, db, []⟩
  | NPage.listings ls =>
    match ls with
    | [] => ⟨Except.ok (PyVal.boolV false), db, []⟩
    | l :: rest => niftyLoop translate fx save fresh prefecture db [] 0 (l :: rest)

/-! ## The drivers -/

/-- One step of sumai's `main` loop (sumai.py 181-192): `scrape_page` is
wrapped in `try/except Exception`; an exception is logged and the loop
CONTINUES with `page += 1`; only a falsy return value breaks.  `true`
means "fetch the next page number". -/
def sumaiMainStep : Except PyErr PyVal → Bool
  | Except.error _ => true
  | Except.ok v => v.truthy

/-- One step of hatomark's / nifty's `process_prefecture` loop
(hatomark.py 250-260, nifty.py 193-203): a falsy return value or a caught
exception breaks that prefecture's loop; other prefectures run
independently.  `true` means "fetch the next page number". -/
def prefLoopStep : Except PyErr PyVal → Bool
  | Except.error _ => false
  | Except.ok v => v.truthy

/-- hatomark's per-prefecture page loop (lines 247-260), fuelled: pages
are fetched at increasing numbers until a step does not continue. -/
def hatomarkPrefLoop (translate : String → String) (fx : ℚ → ℚ)
    (save : String → Option String) (fresh : Nat → String)
    (prefecture : String) (pages : Nat → HPage) :
    Nat → DB → Nat → DB × List PyDict
  | 0, db, _ => (db, [])
  | fuel + 1, db, page =>
    let out := hatomark_scrape_page translate fx save fresh prefecture db (pages page)
    if prefLoopStep out.result then
      let (db', ins') := hatomarkPrefLoop translate fx save fresh prefecture pages fuel out.db (page + 1)
      (db', out.inserted ++ ins')
    else (out.db, out.inserted)

/-! ## updates/sumai.py: the sumai image backfill -/

/-- Outcome of fetching and parsing a stored sumai record's detail page
for the backfill (updates/sumai.py lines 88-114): each guard that fails
logs and returns False; otherwise the `image50` inner divs, each as
`some href?` when it holds an `<a>` (with `href?` its possibly-missing
href attribute) and `Option.none` when it does not. -/
inductive SumaiUpdPage where
  | fetchFail
  | noHeader
  | noEntryContent
  | noImageSection
  | imageDivs (divs : List (Option (Option String)))

/-- The image loop of `scrape_additional_images` (lines 117-128): skip
the first div, and for each remaining div holding an `<a>` with a truthy
href, call `save_image` and append ONLY a non-`None` result. -/
def sumaiUpdCollect (save : String → Option String) :
    List (Option (Option String)) → List String
  | [] => []
  | Option.none :: rest => sumaiUpdCollect save rest
  | some Option.none :: rest => sumaiUpdCollect save rest
  | some (some href) :: rest =>
    if href.isEmpty then sumaiUpdCollect save rest
    else
      match save href with
      | some path => path :: sumaiUpdCollect save rest
      | Option.none => sumaiUpdCollect save rest

/-- `scrape_additional_images(document)` (updates/sumai.py lines 69-141):
returns the Python return value and the collection afterwards.  When new
image paths were collected, `update_one` sets the document's `images` to
the existing list with the new paths appended; nothing else is written. -/
def sumai_scrape_additional_images (save : String → Option String)
    (db : DB) (doc : PyDict) (page : SumaiUpdPage) : PyVal × DB :=
  match dictGet doc "link" with
  | Option.none => (PyVal.boolV false, db)
  | some linkV =>
    if !linkV.truthy then (PyVal.boolV false, db)
    else
      let existingImages : List PyVal :=
        match dictGet doc "images" with
        | some (PyVal.listV xs) => xs
        | _ => []
      match page with
      | SumaiUpdPage.fetchFail => (PyVal.boolV false, db)
      | SumaiUpdPage.noHeader => (PyVal.boolV false, db)
      | SumaiUpdPage.noEntryContent => (PyVal.boolV false, db)
      | SumaiUpdPage.noImageSection => (PyVal.boolV false, db)
      | SumaiUpdPage.imageDivs divs =>
        let newImagePaths := sumaiUpdCollect save (divs.drop 1)
        if newImagePaths.isEmpty then (PyVal.boolV false, db)
        else
          let allImages := existingImages ++ newImagePaths.map PyVal.strV
          match dictGet doc "_id" with
          | some (PyVal.strV pid) =>
            (PyVal.boolV true, update_one_set db pid "images" (PyVal.listV allImages))
          | _ => (PyVal.boolV true, db)

/-! ## nifty_updates.py: the nifty contact/image backfill -/

/-- Parsed proxy-rendered detail page for `scrape_additional_data`
(nifty_updates.py lines 96-115 and onward): whether the rendered body and
its `<main>` were found, the contact number the nifty/pitat branches
would extract (lines 130-146), and the `div#summary` thumbnail srcs when
that div exists (lines 160-163; its absence only logs here). -/
inductive NiftyUpdPage where
  | fetchFail
  | noMain
  | page (contactFound : Option String) (summary : Option (List String))

/-- The additional-image loop of `scrape_additional_data` (lines
165-186): de-duplicate thumbnail srcs preserving order, and when more
than one remains, save each url after the first, appending ONLY non-`None`
results. -/
def niftyUpdCollect (save : String → Option String) (srcs : List String) : List String :=
  let imgUrls := dedupFirst [] srcs
  if imgUrls.length > 1 then
    (imgUrls.drop 1).foldl
      (fun acc url =>
        match save url with
        | some path => acc ++ [path]
        | Option.none => acc) []
  else []

/-- `scrape_additional_data(document)` (nifty_updates.py lines 79-203):
the contact number is set only when the stored one is falsy and one was
found; additional images are scraped only when the stored list has
exactly one entry and the link contains "nifty"; each needed field is
written by its own targeted `update_one`. -/
def nifty_scrape_additional_data (save : String → Option String)
    (db : DB) (doc : PyDict) (page : NiftyUpdPage) : PyVal × DB :=
  match dictGet doc "link" with
  | Option.none => (PyVal.boolV false, db)
  | some linkV =>
    if !linkV.truthy then (PyVal.boolV false, db)
    else
      let link := match linkV with | PyVal.strV s => s | _ => ""
      let existingImages : List PyVal :=
        match dictGet doc "images" with
        | some (PyVal.listV xs) => xs
        | _ => []
      let existingContact := match dictGet doc "Contact Number" with
        | some v => v
        | Option.none => PyVal.noneV
      match page with
      | NiftyUpdPage.fetchFail => (PyVal.boolV false, db)
      | NiftyUpdPage.noMain => (PyVal.boolV false, db)
      | NiftyUpdPage.page contactFound summary =>
        let pid? := match dictGet doc "_id" with
          | some (PyVal.strV pid) => some pid
          | _ => Option.none
        -- contact backfill (lines 128-154)
        let step1 : Bool × DB :=
          if !existingContact.truthy then
            match contactFound with
            | some c =>
              if !c.isEmpty then
                match pid? with
                | some pid => (true, update_one_set db pid "Contact Number" (PyVal.strV c))
                | Option.none => (true, db)
              else (false, db)
            | Option.none => (false, db)
          else (false, db)
        let (updated, db) := step1
        -- image backfill (lines 156-201)
        if existingImages.length = 1 then
          let newImagePaths :=
            if strContainsSub link "nifty" then
              match summary with
              | some srcs => niftyUpdCollect save srcs
              | Option.none => []
            else []
          if newImagePaths.isEmpty then (PyVal.boolV updated, db)
          else
            let allImages := existingImages ++ newImagePaths.map PyVal.strV
            match pid? with
            | some pid => (PyVal.boolV true, update_one_set db pid "images" (PyVal.listV allImages))
            | Option.none => (PyVal.boolV true, db)
        else (PyVal.boolV updated, db)

/-! ## Module-level names relevant to the fetch contract -/

/-- The names nifty.py line 8 imports from `helpers`
(`from helpers import ...`). -/
def niftyHelpersImports : List String :=
  ["translate_text", "save_image", "get_property_type", "get_area_label",
   "setup_logger", "convert_to_usd", "fetch_with_backoff"]

/-- The top-level function names DEFINED in helpers.py (lines 12, 20, 38,
80, 128, 140, 157, 176, 182). -/
def helpersModuleDefs : List String :=
  ["translate_text", "save_image", "setup_logger", "get_table_field_english",
   "get_property_type", "get_area_label", "extract_yen_amount",
   "convert_to_usd", "get_random_user_agent"]

/-- "The partition already knows this page": a fetched hatomark index
page whose first listing's link (and hence, in the newest-first crawl
order the dedupe strategy assumes, every listing's link) is already in
the collection.  Failed or empty fetch outcomes impose nothing. -/
def hatomarkPageKnown (db : DB) : HPage → Prop
  | HPage.listings (l :: _) => (find_one_link db l.link).isSome
  | _ => True

/-! ## Shared lemmas -/

theorem dictGet_dictSet_self (d : PyDict) (k : String) (v : PyVal) :
    dictGet (dictSet d k v) k = some v := by
  induction d with
  | nil => simp [dictSet, dictGet]
  | cons hd tl ih =>
    obtain ⟨k', v'⟩ := hd
    by_cases h : k' = k <;> simp [dictSet, dictGet, h, ih]

theorem dictGet_dictSet_ne (d : PyDict) (k k' : String) (v : PyVal) (h : k' ≠ k) :
    dictGet (dictSet d k v) k' = dictGet d k' := by
  have hk : ¬ k = k' := fun hh => h hh.symm
  induction d with
  | nil => simp [dictSet, dictGet, hk]
  | cons hd tl ih =>
    obtain ⟨k₀, v₀⟩ := hd
    by_cases h₀ : k₀ = k
    · subst h₀
      simp [dictSet, dictGet, hk]
    · simp [dictSet, dictGet, h₀, ih]

theorem update_one_set_append (pre post : List PyDict) (doc : PyDict)
    (pid k : String) (v : PyVal)
    (hpre : ∀ r ∈ pre, hasId r pid = false) (hdoc : hasId doc pid = true) :
    update_one_set (pre ++ doc :: post) pid k v = pre ++ dictSet doc k v :: post := by
  induction pre with
  | nil => simp [update_one_set, hdoc]
  | cons r rest ih =>
    have hr : hasId r pid = false := hpre r (List.mem_cons_self r rest)
    simp only [List.cons_append, update_one_set, hr, Bool.false_eq_true, if_false]
    rw [show rest.append (doc :: post) = rest ++ doc :: post from rfl,
      ih (fun r' hr' => hpre r' (List.mem_cons_of_mem r hr'))]


theorem sumaiEvalCreatedAt_eq : sumaiEvalCreatedAt = Except.error PyErr.attributeError := rfl

/-- Building a new sumai record never succeeds: every control path either
raises earlier or reaches the `createdAt` expression, which raises
`AttributeError`. -/
theorem sumaiProcessDetail_error (translate : String → String) (fx : ℚ → ℚ)
    (save : String → Option String) (pid link : String) (det : SumaiDetail) :
    ∃ e, sumaiProcessDetail translate fx save pid link det = Except.error e := by
  unfold sumaiProcessDetail
  cases hrows : sumaiProcessRows translate
      (dictSet (dictSet [("_id", PyVal.strV pid)] "link" (PyVal.strV link))
        "description" (PyVal.strV (translate det.description))) det.rows with
  | error e => exact ⟨e, by simp [hrows]⟩
  | ok d1 =>
    cases him : det.imageSection with
    | none => exact ⟨PyErr.attributeError, by simp [hrows, him]⟩
    | some divs =>
      cases hsp : sumaiUpdateSalePrice fx
          (dictSet d1 "images" (PyVal.listV ((sumaiImagePaths save divs).map optStrToPy))) with
      | error e => exact ⟨e, by simp [hrows, him, hsp]⟩
      | ok d2 =>
        exact ⟨PyErr.attributeError, by simp [hrows, him, hsp, sumaiEvalCreatedAt_eq]⟩

/-- sumai's listing loop neither inserts nor changes the collection: the
duplicate branch raises while evaluating the `update_one` argument, and a
new listing's record build always raises before `insert_one`. -/
theorem sumaiLoop_no_insert (translate : String → String) (fx : ℚ → ℚ)
    (save : String → Option String) (fresh : Nat → String) :
    ∀ (ls : List SumaiListing) (db : DB) (ins : List PyDict) (idx : Nat),
      (sumaiLoop translate fx save fresh db ins idx ls).inserted = ins
      ∧ (sumaiLoop translate fx save fresh db ins idx ls).db = db := by
  intro ls
  induction ls with
  | nil => intro db ins idx; exact ⟨rfl, rfl⟩
  | cons l rest ih =>
    intro db ins idx
    simp only [sumaiLoop]
    cases hf : find_one_link db l.link with
    | some doc => simp [sumaiEvalCreatedAt_eq]
    | none =>
      cases hd : l.detail with
      | none => exact ih db ins (idx + 1)
      | some det =>
        obtain ⟨e, he⟩ := sumaiProcessDetail_error translate fx save (fresh idx) l.link det
        simp [he]

theorem extract_yen_30m : extract_yen_amount "30 million yen" = Except.ok (some 30000000) := by
  have h : ((30 : ℕ) : ℚ) * 1000000 = ((30000000 : ℕ) : ℚ) := by norm_num
  show Except.ok (some (pyInt (((30 : ℕ) : ℚ) * 1000000))) = _
  rw [h]
  show Except.ok (some (Int.tdiv ((30000000 : ℕ) : ℚ).num ((30000000 : ℕ) : ℚ).den)) = _
  norm_num [Int.tdiv]

theorem convert_usd_30m (fx : ℚ → ℚ) :
    convert_to_usd fx (PyVal.strV "30 million yen")
      = Except.ok (PyVal.numV (round2 (fx 30000000))) := by
  simp [convert_to_usd, extract_yen_30m]

/-- One failed iteration of the fetch loop: log, sleep a jitter bounded by
the current backoff, double the backoff, move to the next attempt. -/
theorem fetchLoop_failStep (outcomes : Nat → FetchAttempt) (n i a : Nat)
    (s : List ℚ) (backoff : ℚ) (h : (outcomes i).isSuccess = false) :
    fetchLoop outcomes (n + 1) i a s backoff
      = fetchLoop outcomes n (i + 1) (a + 1) (s ++ [backoff]) (backoff * 2) := by
  cases ho : outcomes i with
  | success body => rw [ho] at h; simp [FetchAttempt.isSuccess] at h
  | httpStatus c => simp [fetchLoop, ho]
  | requestError => simp [fetchLoop, ho]

/-! ## Claim C3 -/

/-- Claim C3 (counterexample): as stated, the claim fails.  When every
attempt fails, `fetch_with_backoff` does return the failure value after
exactly 5 attempts, but it sleeps 5 times, not only the 4 times that lie
between attempts: the loop body sleeps unconditionally after each failed
attempt, including the fifth and last, before `None` is returned. -/
theorem C3_counterexample :
    ¬ ((fetch_with_backoff 30 (fun _ => FetchAttempt.requestError)).result = Option.none
       ∧ (fetch_with_backoff 30 (fun _ => FetchAttempt.requestError)).attempts = 5
       ∧ (fetch_with_backoff 30 (fun _ => FetchAttempt.requestError)).sleepBounds.length ≤ 4) := by
  intro h
  have hlen : (fetch_with_backoff 30 (fun _ => FetchAttempt.requestError)).sleepBounds.length = 5 := rfl
  rw [hlen] at h
  exact absurd h.2.2 (by norm_num)

/-- Claim C3 (amended): for every fetch sequence in which all attempts
fail, `fetch_with_backoff` returns the failure value `None` after exactly
the maximum attempt count (5) and performs exactly 5 sleeps — one after
each failed attempt, the last one after the final attempt and before the
failure is returned — with geometrically doubling jitter bounds starting
at the module's initial backoff. -/
theorem C3_fetch_exhausted (b : ℚ) (outcomes : Nat → FetchAttempt)
    (h : ∀ i, i < 5 → (outcomes i).isSuccess = false) :
    fetch_with_backoff b outcomes =
      { attempts := 5,
        sleepBounds := [b, b * 2, b * 2 * 2, b * 2 * 2 * 2, b * 2 * 2 * 2 * 2],
        result := Option.none } := by
  show fetchLoop outcomes (4 + 1) 0 0 [] b = _
  rw [fetchLoop_failStep outcomes 4 0 0 [] b (h 0 (by norm_num))]
  show fetchLoop outcomes (3 + 1) 1 1 ([] ++ [b]) (b * 2) = _
  rw [fetchLoop_failStep outcomes 3 1 1 ([] ++ [b]) (b * 2) (h 1 (by norm_num))]
  show fetchLoop outcomes (2 + 1) 2 2 ([] ++ [b] ++ [b * 2]) (b * 2 * 2) = _
  rw [fetchLoop_failStep outcomes 2 2 2 ([] ++ [b] ++ [b * 2]) (b * 2 * 2) (h 2 (by norm_num))]
  show fetchLoop outcomes (1 + 1) 3 3 ([] ++ [b] ++ [b * 2] ++ [b * 2 * 2]) (b * 2 * 2 * 2) = _
  rw [fetchLoop_failStep outcomes 1 3 3 ([] ++ [b] ++ [b * 2] ++ [b * 2 * 2]) (b * 2 * 2 * 2)
    (h 3 (by norm_num))]
  show fetchLoop outcomes (0 + 1) 4 4 ([] ++ [b] ++ [b * 2] ++ [b * 2 * 2] ++ [b * 2 * 2 * 2])
      (b * 2 * 2 * 2 * 2) = _
  rw [fetchLoop_failStep outcomes 0 4 4 ([] ++ [b] ++ [b * 2] ++ [b * 2 * 2] ++ [b * 2 * 2 * 2])
    (b * 2 * 2 * 2 * 2) (h 4 (by norm_num))]
  simp [fetchLoop]

/-- Witness for C3_fetch_exhausted at the hatomark backoff and an
all-exception outcome sequence. -/
theorem C3_fetch_exhausted_witness :
    fetch_with_backoff 30 (fun _ => FetchAttempt.requestError) =
      { attempts := 5,
        sleepBounds := [30, 30 * 2, 30 * 2 * 2, 30 * 2 * 2 * 2, 30 * 2 * 2 * 2 * 2],
        result := Option.none } :=
  C3_fetch_exhausted 30 (fun _ => FetchAttempt.requestError) (fun _ _ => rfl)

/-! ## Claim C4 -/

/-- Claim C4 (counterexample): as stated, the claim fails.  A successful
fetch returns the response BODY alone (`response.text`), not a
(status, body) pair, and the nifty adapter's two-argument
pair-destructuring call has NO matching implementation available:
nifty.py imports `fetch_with_backoff` from `helpers`, but helpers.py
defines no function of that name, so the import itself fails. -/
theorem C4_counterexample :
    ("fetch_with_backoff" ∈ niftyHelpersImports
       ∧ "fetch_with_backoff" ∉ helpersModuleDefs)
    ∧ (fetch_with_backoff 30 (fun _ => FetchAttempt.success "<html>")).result
        = some "<html>" := by
  exact ⟨⟨by decide, by decide⟩, rfl⟩

/-- Claim C4 (amended): every `fetch_with_backoff` actually defined in the
crawlers returns the body string on a 200 response and `None` on failure —
there is no (status, body) pair; and the one caller that consumes a
two-value (status, body) contract, nifty.py, imports `fetch_with_backoff`
from `helpers`, which does not define it, so no matching implementation
is available for that call. -/
theorem C4_fetch_contract (b : ℚ) (outcomes : Nat → FetchAttempt) (body : String)
    (h : outcomes 0 = FetchAttempt.success body) :
    fetch_with_backoff b outcomes
        = { attempts := 1, sleepBounds := [], result := some body }
    ∧ "fetch_with_backoff" ∈ niftyHelpersImports
    ∧ "fetch_with_backoff" ∉ helpersModuleDefs := by
  refine ⟨?_, by decide, by decide⟩
  show fetchLoop outcomes (4 + 1) 0 0 [] b = _
  simp [fetchLoop, h]

/-- Witness for C4_fetch_contract at a concrete immediately-successful
outcome sequence. -/
theorem C4_fetch_contract_witness :
    fetch_with_backoff (1/2) (fun _ => FetchAttempt.success "<html>")
        = { attempts := 1, sleepBounds := [], result := some "<html>" }
    ∧ "fetch_with_backoff" ∈ niftyHelpersImports
    ∧ "fetch_with_backoff" ∉ helpersModuleDefs :=
  C4_fetch_contract (1/2) (fun _ => FetchAttempt.success "<html>") "<html>" rfl

/-! ## Claim C9 -/

/-- Claim C9 (confirmed): for the displayed amount string
"30 million yen", `extract_yen_amount` yields the integer magnitude
30,000,000 (commas removed, "million" scaling the parsed number by
1,000,000), and `convert_to_usd` applies the external FX rate only to
that extracted magnitude. -/
theorem C9_yen_magnitude :
    extract_yen_amount "30 million yen" = Except.ok (some 30000000)
    ∧ ∀ fx : ℚ → ℚ, convert_to_usd fx (PyVal.strV "30 million yen")
        = Except.ok (PyVal.numV (round2 (fx 30000000))) :=
  ⟨extract_yen_30m, convert_usd_30m⟩

/-! ## Claim C10 -/

/-- Claim C10 (confirmed): in sumai.py the name `datetime` is the
datetime CLASS (`from datetime import datetime`), which has no
`timezone` attribute, so every evaluation of
`datetime.now(datetime.timezone.utc)` raises `AttributeError`.
Consequently (i) no call of sumai's `scrape_page` ever inserts a record
or changes the collection, (ii) building a new listing's record always
raises before `collection.insert_one`, and (iii) the duplicate branch
raises while evaluating the `update_one` argument, before the
`createdAt` refresh completes. -/
theorem C10_sumai_createdAt_always_raises (translate : String → String)
    (fx : ℚ → ℚ) (save : String → Option String) (fresh : Nat → String) :
    sumaiEvalCreatedAt = Except.error PyErr.attributeError
    ∧ (∀ (db : DB) (page : SumaiPage),
        (sumai_scrape_page translate fx save fresh db page).inserted = []
        ∧ (sumai_scrape_page translate fx save fresh db page).db = db)
    ∧ (∀ (pid link : String) (det : SumaiDetail),
        ∃ e, sumaiProcessDetail translate fx save pid link det = Except.error e)
    ∧ (∀ (db : DB) (l : SumaiListing) (rest : List SumaiListing),
        (find_one_link db l.link).isSome →
        (sumai_scrape_page translate fx save fresh db
            (SumaiPage.listings (l :: rest))).result
          = Except.error PyErr.attributeError) := by
  refine ⟨sumaiEvalCreatedAt_eq, ?_, sumaiProcessDetail_error translate fx save, ?_⟩
  · intro db page
    cases page with
    | fetchFail => exact ⟨rfl, rfl⟩
    | noContent => exact ⟨rfl, rfl⟩
    | listings ls =>
      cases ls with
      | nil => exact ⟨rfl, rfl⟩
      | cons l rest =>
        exact sumaiLoop_no_insert translate fx save fresh (l :: rest) db [] 0
  · intro db l rest hdup
    obtain ⟨doc, hdoc⟩ := Option.isSome_iff_exists.mp hdup
    show (sumaiLoop translate fx save fresh db [] 0 (l :: rest)).result = _
    simp [sumaiLoop, hdoc, sumaiEvalCreatedAt_eq]

/-- Witness for C10 at a concrete duplicate listing: the page scan ends
in `AttributeError`. -/
theorem C10_sumai_createdAt_always_raises_witness :
    (sumai_scrape_page id id (fun _ => Option.none) (fun _ => "p")
        [[("_id", PyVal.strV "x"),
          ("link", PyVal.strV "https://akiya.sumai.biz/L1")]]
        (SumaiPage.listings [⟨"https://akiya.sumai.biz/L1", Option.none⟩])).result
      = Except.error PyErr.attributeError :=
  (C10_sumai_createdAt_always_raises id id (fun _ => Option.none)
      (fun _ => "p")).2.2.2
    [[("_id", PyVal.strV "x"), ("link", PyVal.strV "https://akiya.sumai.biz/L1")]]
    ⟨"https://akiya.sumai.biz/L1", Option.none⟩ [] (by decide)

/-! ## Claim C2 -/

/-- Claim C2 (code bug): for hatomark and nifty an empty page returns
`False` and the prefecture loop stops, but sumai's `scrape_page` returns
the TUPLE `(False, "listings")` on a page with zero listing blocks; a
non-empty tuple is truthy in Python, so `main`'s
`if not scrape_page(page)` does not break and the loop goes on to the
next page number, contrary to the documented stop condition. -/
theorem C2_empty_page_stop_signal :
    (sumai_scrape_page id id (fun _ => Option.none) (fun _ => "p") []
        (SumaiPage.listings [])).result
      = Except.ok (PyVal.tupleV [PyVal.boolV false, PyVal.strV "listings"])
    ∧ sumaiMainStep
        (Except.ok (PyVal.tupleV [PyVal.boolV false, PyVal.strV "listings"])) = true
    ∧ (hatomark_scrape_page id id (fun _ => Option.none) (fun _ => "p") "tokyo" []
        (HPage.listings [])).result = Except.ok (PyVal.boolV false)
    ∧ prefLoopStep (Except.ok (PyVal.boolV false)) = false
    ∧ (nifty_scrape_page id id (fun _ => Option.none) (fun _ => "p") "tokyo" []
        (NPage.listings [])).result = Except.ok (PyVal.boolV false) :=
  ⟨rfl, rfl, rfl, rfl, rfl⟩

/-! ## Claim C1 -/

/-- Claim C1 (counterexample): as stated, the claim fails for the sumai
adapter.  On a page whose first listing's link is already in the
partition, sumai's `scrape_page` does not return the duplicate-stop
signal: the duplicate branch skips (`continue`; the `return False` is
commented out) and its `createdAt` refresh raises `AttributeError`, so
the call ends in an exception — though it still inserts nothing. -/
theorem C1_counterexample :
    (sumai_scrape_page id id (fun _ => Option.none) (fun _ => "p")
        [[("_id", PyVal.strV "x"),
          ("link", PyVal.strV "https://akiya.sumai.biz/L1")]]
        (SumaiPage.listings [⟨"https://akiya.sumai.biz/L1", Option.none⟩])).result
      ≠ Except.ok (PyVal.boolV false)
    ∧ (sumai_scrape_page id id (fun _ => Option.none) (fun _ => "p")
        [[("_id", PyVal.strV "x"),
          ("link", PyVal.strV "https://akiya.sumai.biz/L1")]]
        (SumaiPage.listings [⟨"https://akiya.sumai.biz/L1", Option.none⟩])).result
      = Except.error PyErr.attributeError
    ∧ (sumai_scrape_page id id (fun _ => Option.none) (fun _ => "p")
        [[("_id", PyVal.strV "x"),
          ("link", PyVal.strV "https://akiya.sumai.biz/L1")]]
        (SumaiPage.listings [⟨"https://akiya.sumai.biz/L1", Option.none⟩])).inserted
      = [] := by
  refine ⟨?_, rfl, rfl⟩
  intro h
  rw [show (sumai_scrape_page id id (fun _ => Option.none) (fun _ => "p")
      [[("_id", PyVal.strV "x"),
        ("link", PyVal.strV "https://akiya.sumai.biz/L1")]]
      (SumaiPage.listings [⟨"https://akiya.sumai.biz/L1", Option.none⟩])).result
    = Except.error PyErr.attributeError from rfl] at h
  cases h

/-- Claim C1 (amended): re-running a full crawl over an already-complete
partition inserts zero records on every site, and for hatomark and nifty
the page scan returns the stop signal `False` at the first already-known
link without inserting or changing anything — hatomark's whole
prefecture loop then inserts nothing at any fuel; the sumai adapter,
however, does not stop: it also inserts nothing (its record build and
duplicate refresh always raise), but its scan ends in `AttributeError`
instead of the stop signal, and the driver moves to the next page. -/
theorem C1_idempotent_recrawl
    (translate : String → String) (fx : ℚ → ℚ) (save : String → Option String)
    (fresh : Nat → String) (prefecture : String) (db : DB)
    (hl : HListing) (hrest : List HListing)
    (hdup : (find_one_link db hl.link).isSome)
    (nl : NListing) (nrest : List NListing) (nlink : String)
    (hnl : niftyNormalizeLink nl.href = Except.ok nlink)
    (hndup : (find_one_link db nlink).isSome)
    (spage : SumaiPage) (sl : SumaiListing) (srest : List SumaiListing)
    (hsdup : (find_one_link db sl.link).isSome)
    (pages : Nat → HPage) (hpages : ∀ p, hatomarkPageKnown db (pages p))
    (fuel start : Nat) :
    hatomark_scrape_page translate fx save fresh prefecture db
        (HPage.listings (hl :: hrest))
      = ⟨Except.ok (PyVal.boolV false), db, []⟩
    ∧ nifty_scrape_page translate fx save fresh prefecture db
        (NPage.listings (nl :: nrest))
      = ⟨Except.ok (PyVal.boolV false), db, []⟩
    ∧ hatomarkPrefLoop translate fx save fresh prefecture pages fuel db start
      = (db, [])
    ∧ (sumai_scrape_page translate fx save fresh db spage).inserted = []
    ∧ (sumai_scrape_page translate fx save fresh db
        (SumaiPage.listings (sl :: srest))).result
      = Except.error PyErr.attributeError := by
  obtain ⟨hdoc, hhdoc⟩ := Option.isSome_iff_exists.mp hdup
  obtain ⟨ndoc, hndoc⟩ := Option.isSome_iff_exists.mp hndup
  obtain ⟨sdoc, hsdoc⟩ := Option.isSome_iff_exists.mp hsdup
  refine ⟨?_, ?_, ?_, ?_, ?_⟩
  · show hatomarkLoop translate fx save fresh prefecture db [] 0 (hl :: hrest) = _
    simp [hatomarkLoop, hhdoc]
  · show niftyLoop translate fx save fresh prefecture db [] 0 (nl :: nrest) = _
    simp [niftyLoop, hnl, hndoc]
  · cases fuel with
    | zero => rfl
    | succ n =>
      cases hp : pages start with
      | fetchFail =>
        simp [hatomarkPrefLoop, hatomark_scrape_page, hp, prefLoopStep, PyVal.truthy]
      | noContent =>
        simp [hatomarkPrefLoop, hatomark_scrape_page, hp, prefLoopStep]
      | listings ls =>
        cases ls with
        | nil =>
          simp [hatomarkPrefLoop, hatomark_scrape_page, hp, prefLoopStep, PyVal.truthy]
        | cons l rest =>
          have hk := hpages start
          rw [hp] at hk
          obtain ⟨doc, hdoc2⟩ := Option.isSome_iff_exists.mp hk
          simp [hatomarkPrefLoop, hatomark_scrape_page, hatomarkLoop, hp, hdoc2,
            prefLoopStep, PyVal.truthy]
  · cases spage with
    | fetchFail => rfl
    | noContent => rfl
    | listings ls =>
      cases ls with
      | nil => rfl
      | cons l rest =>
        exact (sumaiLoop_no_insert translate fx save fresh (l :: rest) db [] 0).1
  · show (sumaiLoop translate fx save fresh db [] 0 (sl :: srest)).result = _
    simp [sumaiLoop, hsdoc, sumaiEvalCreatedAt_eq]

/-- Witness for C1_idempotent_recrawl at a one-record partition whose
single link is the one every page presents. -/
theorem C1_idempotent_recrawl_witness :
    hatomark_scrape_page id id (fun _ => Option.none) (fun _ => "p") "tokyo"
        [[("_id", PyVal.strV "x"), ("link", PyVal.strV "L")]]
        (HPage.listings [⟨"L", "pt", "loc", [], [], Option.none⟩])
      = ⟨Except.ok (PyVal.boolV false),
         [[("_id", PyVal.strV "x"), ("link", PyVal.strV "L")]], []⟩
    ∧ nifty_scrape_page id id (fun _ => Option.none) (fun _ => "p") "tokyo"
        [[("_id", PyVal.strV "x"), ("link", PyVal.strV "L")]]
        (NPage.listings [⟨"L", "pt", "pr", [], [], Option.none⟩])
      = ⟨Except.ok (PyVal.boolV false),
         [[("_id", PyVal.strV "x"), ("link", PyVal.strV "L")]], []⟩
    ∧ hatomarkPrefLoop id id (fun _ => Option.none) (fun _ => "p") "tokyo"
        (fun _ => HPage.listings [⟨"L", "pt", "loc", [], [], Option.none⟩]) 7
        [[("_id", PyVal.strV "x"), ("link", PyVal.strV "L")]] 1
      = ([[("_id", PyVal.strV "x"), ("link", PyVal.strV "L")]], [])
    ∧ (sumai_scrape_page id id (fun _ => Option.none) (fun _ => "p")
        [[("_id", PyVal.strV "x"), ("link", PyVal.strV "L")]]
        (SumaiPage.listings [⟨"L", Option.none⟩])).inserted = []
    ∧ (sumai_scrape_page id id (fun _ => Option.none) (fun _ => "p")
        [[("_id", PyVal.strV "x"), ("link", PyVal.strV "L")]]
        (SumaiPage.listings [⟨"L", Option.none⟩])).result
      = Except.error PyErr.attributeError :=
  C1_idempotent_recrawl id id (fun _ => Option.none) (fun _ => "p") "tokyo"
    [[("_id", PyVal.strV "x"), ("link", PyVal.strV "L")]]
    ⟨"L", "pt", "loc", [], [], Option.none⟩ [] (by decide)
    ⟨"L", "pt", "pr", [], [], Option.none⟩ [] "L" rfl (by decide)
    (SumaiPage.listings [⟨"L", Option.none⟩]) ⟨"L", Option.none⟩ [] (by decide)
    (fun _ => HPage.listings [⟨"L", "pt", "loc", [], [], Option.none⟩])
    (fun _ => rfl) 7 1

/-! ## Claim C5 -/

/-- Claim C5 (counterexample): as stated, the claim fails.  The sumai
prefecture derivation requires MORE THAN TWO comma-separated parts
(`len(loc_parts) > 2`, sumai.py line 172), so the two-part location
"Shibuya, Tokyo" — which the claim says yields Prefecture "tokyo" — sets
no Prefecture field at all. -/
theorem C5_counterexample :
    dictGet (sumaiStorePrefecture
        [("Property Location", PyVal.strV "Shibuya, Tokyo")]) "Prefecture"
      ≠ some (PyVal.strV "tokyo") := by
  intro h
  rw [show dictGet (sumaiStorePrefecture
      [("Property Location", PyVal.strV "Shibuya, Tokyo")]) "Prefecture"
    = Option.none from rfl] at h
  cases h

/-- Claim C5 (amended): for a record whose truthy Property Location
string splits into MORE THAN TWO comma-separated segments, the derived
Prefecture equals the last segment stripped and lower-cased; with two or
fewer segments (such as "Shibuya, Tokyo") the record is left unchanged
and no Prefecture is derived. -/
theorem C5_prefecture_derivation (d : PyDict) (s : String)
    (hloc : dictGet d "Property Location" = some (PyVal.strV s)) (hne : s ≠ "") :
    (2 < (pySplit s ',').length →
      dictGet (sumaiStorePrefecture d) "Prefecture"
        = some (PyVal.strV (pyLower (pyStrip ((pySplit s ',').getLastD "")))))
    ∧ ((pySplit s ',').length ≤ 2 → sumaiStorePrefecture d = d) := by
  have h1 : s.isEmpty = false := by
    cases hb : s.isEmpty with
    | false => rfl
    | true => exact absurd ((String.isEmpty_iff s).mp hb) hne
  have htr : (PyVal.strV s).truthy = true := by simp [PyVal.truthy, h1]
  constructor
  · intro hgt
    unfold sumaiStorePrefecture
    rw [hloc]
    simp only [htr, if_true]
    rw [if_pos hgt]
    exact dictGet_dictSet_self d "Prefecture" _
  · intro hle
    unfold sumaiStorePrefecture
    rw [hloc]
    simp only [htr, if_true]
    rw [if_neg (by omega)]

/-- Witness for C5_prefecture_derivation: a three-part location does get
its Prefecture, and it is "tokyo". -/
theorem C5_prefecture_derivation_witness :
    dictGet (sumaiStorePrefecture
        [("Property Location", PyVal.strV "Chiyoda, Shibuya, Tokyo")]) "Prefecture"
      = some (PyVal.strV "tokyo") :=
  ((C5_prefecture_derivation
      [("Property Location", PyVal.strV "Chiyoda, Shibuya, Tokyo")]
      "Chiyoda, Shibuya, Tokyo" rfl (by decide)).1 (by decide)).trans rfl

/-! ## Claim C8 -/

/-- Claim C8 (counterexample): as stated, the claim fails.  An unmapped
field label does raise `KeyError` out of `scrape_page`, but the error IS
caught: sumai's `main` wraps `scrape_page` in `except Exception`, logs,
and CONTINUES with the next page (`sumaiMainStep = true`), so the run
does not halt. -/
theorem C8_counterexample :
    (sumai_scrape_page id id (fun _ => Option.none) (fun _ => "p") []
        (SumaiPage.listings
          [⟨"https://akiya.sumai.biz/L9",
            some ⟨"desc", [[⟨"謎ラベル", Option.none⟩, ⟨"値", Option.none⟩]],
              some []⟩⟩])).result
      = Except.error (PyErr.keyError "謎ラベル")
    ∧ sumaiMainStep (Except.error (PyErr.keyError "謎ラベル")) = true :=
  ⟨rfl, rfl⟩

/-- Claim C8 (amended): a field label outside the static table makes
`get_table_field_english` raise `KeyError`, and no handler inside
`scrape_page` catches it, so the page scan ends in the error; but every
crawl driver does catch it — sumai's page loop logs and continues with
the next page, and hatomark's/nifty's prefecture loop logs and ends only
that prefecture's loop (the run, with its other prefectures, goes on).
The run does not halt. -/
theorem C8_unknown_label_is_caught (f : String)
    (hf : tableLookup tableFieldMap f = Option.none)
    (translate : String → String) (fx : ℚ → ℚ) (save : String → Option String)
    (fresh : Nat → String) (db : DB) (link : String) (det : SumaiDetail)
    (t0 t1 : STd) (tds : List STd) (rows : List (List STd))
    (srest : List SumaiListing)
    (hnew : find_one_link db link = Option.none)
    (hrows : det.rows = (t0 :: t1 :: tds) :: rows) (ht0 : t0.text = f) :
    get_table_field_english f = Except.error (PyErr.keyError f)
    ∧ (sumai_scrape_page translate fx save fresh db
        (SumaiPage.listings (⟨link, some det⟩ :: srest))).result
      = Except.error (PyErr.keyError f)
    ∧ (∀ e, sumaiMainStep (Except.error e) = true)
    ∧ (∀ e, prefLoopStep (Except.error e) = false) := by
  refine ⟨by simp [get_table_field_english, hf], ?_, fun e => rfl, fun e => rfl⟩
  show (sumaiLoop translate fx save fresh db [] 0 (⟨link, some det⟩ :: srest)).result = _
  have hrow : sumaiProcessRow translate
      (dictSet (dictSet [("_id", PyVal.strV (fresh 0))] "link" (PyVal.strV link))
        "description" (PyVal.strV (translate det.description)))
      (t0 :: t1 :: tds) = Except.error (PyErr.keyError f) := by
    simp [sumaiProcessRow, get_table_field_english, ht0, hf]
  have hprocess : sumaiProcessDetail translate fx save (fresh 0) link det
      = Except.error (PyErr.keyError f) := by
    unfold sumaiProcessDetail
    rw [hrows]
    simp [sumaiProcessRows, hrow]
  simp [sumaiLoop, hnew, hprocess]

/-- Witness for C8_unknown_label_is_caught at a concrete unmapped label. -/
theorem C8_unknown_label_is_caught_witness :
    get_table_field_english "謎ラベル" = Except.error (PyErr.keyError "謎ラベル")
    ∧ (sumai_scrape_page id id (fun _ => Option.none) (fun _ => "p") []
        (SumaiPage.listings
          [⟨"https://akiya.sumai.biz/L8",
            some ⟨"desc", [[⟨"謎ラベル", Option.none⟩, ⟨"値", Option.none⟩]],
              some []⟩⟩])).result
      = Except.error (PyErr.keyError "謎ラベル")
    ∧ (∀ e, sumaiMainStep (Except.error e) = true)
    ∧ (∀ e, prefLoopStep (Except.error e) = false) :=
  C8_unknown_label_is_caught "謎ラベル" (by decide) id id (fun _ => Option.none)
    (fun _ => "p") [] "https://akiya.sumai.biz/L8"
    ⟨"desc", [[⟨"謎ラベル", Option.none⟩, ⟨"値", Option.none⟩]], some []⟩
    ⟨"謎ラベル", Option.none⟩ ⟨"値", Option.none⟩ [] [] [] rfl rfl rfl

theorem moduleEvalCreatedAt_eq : moduleEvalCreatedAt = Except.ok PyVal.timeV := rfl

theorem strV_truthy (s : String) (h : s ≠ "") : (PyVal.strV s).truthy = true := by
  have h1 : s.isEmpty = false := by
    cases hb : s.isEmpty with
    | false => rfl
    | true => exact absurd ((String.isEmpty_iff s).mp hb) h
  simp [PyVal.truthy, h1]

theorem str_isEmpty_false (s : String) (h : s ≠ "") : s.isEmpty = false := by
  cases hb : s.isEmpty with
  | false => rfl
  | true => exact absurd ((String.isEmpty_iff s).mp hb) h

/-! ## Claim C6 -/

/-- Claim C6 (counterexample): as stated, the claim fails.  A hatomark
listing whose single image download fails (`save_image` returns `None`)
is inserted with `images = [None]`: the crawler appends the `save_image`
result unconditionally, so the failed download contributes a `None`
element — not "no element" — while the record is indeed still
inserted. -/
theorem C6_counterexample :
    ((hatomark_scrape_page id id (fun _ => Option.none) (fun _ => "pid") "tokyo" []
        (HPage.listings
          [⟨"https://www.hatomarksite.com/L2", "戸建", "loc", [],
            ["30 million yen"],
            some ⟨some "03-1", [(some 0, some "http://img/1.jpg")]⟩⟩])).inserted.map
        (fun r => dictGet r "images"))
      = [some (PyVal.listV [PyVal.noneV])]
    ∧ (hatomark_scrape_page id id (fun _ => Option.none) (fun _ => "pid") "tokyo" []
        (HPage.listings
          [⟨"https://www.hatomarksite.com/L2", "戸建", "loc", [],
            ["30 million yen"],
            some ⟨some "03-1", [(some 0, some "http://img/1.jpg")]⟩⟩])).result
      = Except.ok (PyVal.boolV true) :=
  ⟨rfl, rfl⟩

/-- Claim C6 (amended): in the initial crawlers the `images` field of an
inserted record is the per-url `save_image` result list in source order
WITH failed downloads kept as `None` entries (the append is
unconditional), and the record is inserted regardless of how many image
downloads fail; the hatomark page scan and nifty's image pipeline both
show this shape. -/
theorem C6_failed_image_saves_kept
    (translate : String → String) (fx : ℚ → ℚ) (save : String → Option String)
    (fresh : Nat → String) (prefecture : String) (db : DB)
    (l : HListing) (det : HDetail)
    (hnew : find_one_link db l.link = Option.none)
    (hdet : l.detail = some det) (usd : PyVal)
    (hprice : convert_to_usd fx (optStrToPy ((l.infoDivs[0]?).map translate))
      = Except.ok usd)
    (nlink nprefecture : String) (nd : PyDict) (npt npr nloc : String)
    (ntr : Option String) (ndet : NDetail) (srcs : List String) (nusd : PyVal)
    (hnprice : convert_to_usd fx (PyVal.strV npr) = Except.ok nusd)
    (hnnifty : strContainsSub nlink "nifty" = true)
    (hnsummary : ndet.summary = some srcs) :
    (∃ d, hatomarkProcessListing translate fx save (fresh 0) prefecture l det
        = Except.ok d
      ∧ dictGet d "images"
          = some (PyVal.listV
              (((hatomarkCollectImages det.slickDivs).map save).map optStrToPy))
      ∧ (hatomark_scrape_page translate fx save fresh prefecture db
          (HPage.listings [l])).inserted = [d]
      ∧ (hatomark_scrape_page translate fx save fresh prefecture db
          (HPage.listings [l])).result = Except.ok (PyVal.boolV true))
    ∧ (∃ d2, niftyFinish fx save nlink nprefecture nd npt npr nloc ntr ndet
        = Except.ok d2
      ∧ dictGet d2 "images"
          = some (PyVal.listV (((dedupFirst [] srcs).map save).map optStrToPy))) := by
  constructor
  · cases hp : hatomarkProcessListing translate fx save (fresh 0) prefecture l det with
    | error e =>
      exfalso
      revert hp
      simp only [hatomarkProcessListing, hprice, moduleEvalCreatedAt_eq]
      intro hp
      cases hp
    | ok d =>
      have himg : dictGet d "images"
          = some (PyVal.listV
              (((hatomarkCollectImages det.slickDivs).map save).map optStrToPy)) := by
        revert hp
        simp only [hatomarkProcessListing, hprice, moduleEvalCreatedAt_eq]
        intro hp
        cases hp
        exact dictGet_dictSet_self _ _ _
      refine ⟨d, rfl, himg, ?_, ?_⟩
      · show (hatomarkLoop translate fx save fresh prefecture db [] 0 [l]).inserted = _
        simp [hatomarkLoop, hnew, hdet, hp]
      · show (hatomarkLoop translate fx save fresh prefecture db [] 0 [l]).result = _
        simp [hatomarkLoop, hnew, hdet, hp]
  · cases hf : niftyFinish fx save nlink nprefecture nd npt npr nloc ntr ndet with
    | error e =>
      exfalso
      revert hf
      simp only [niftyFinish, hnprice, moduleEvalCreatedAt_eq, hnnifty, hnsummary, if_true]
      intro hf
      cases hf
    | ok d2 =>
      have himg : dictGet d2 "images"
          = some (PyVal.listV (((dedupFirst [] srcs).map save).map optStrToPy)) := by
        revert hf
        simp only [niftyFinish, hnprice, moduleEvalCreatedAt_eq, hnnifty, hnsummary, if_true]
        intro hf
        cases hf
        exact dictGet_dictSet_self _ _ _
      exact ⟨d2, rfl, himg⟩

/-- Witness for C6_failed_image_saves_kept: two image urls on the
hatomark detail page, where saving "u1" succeeds and saving "u2" fails;
the nifty side gets three thumbnails under the same mixed saves. -/
theorem C6_failed_image_saves_kept_witness :
    (∃ d, hatomarkProcessListing id id
          (fun u => if u = "u1" then some "images/hatomark/pid/a.jpg" else Option.none)
          ((fun _ => "pid") 0) "tokyo"
          ⟨"L2", "pt", "loc", [], ["30 million yen"],
            some ⟨some "03-1", [(some 1, some "u2"), (some 0, some "u1")]⟩⟩
          ⟨some "03-1", [(some 1, some "u2"), (some 0, some "u1")]⟩
        = Except.ok d
      ∧ dictGet d "images"
          = some (PyVal.listV
              (((hatomarkCollectImages
                  (HDetail.mk (some "03-1")
                    [(some 1, some "u2"), (some 0, some "u1")]).slickDivs).map
                  (fun u => if u = "u1" then some "images/hatomark/pid/a.jpg"
                    else Option.none)).map optStrToPy))
      ∧ (hatomark_scrape_page id id
          (fun u => if u = "u1" then some "images/hatomark/pid/a.jpg" else Option.none)
          (fun _ => "pid") "tokyo" []
          (HPage.listings
            [⟨"L2", "pt", "loc", [], ["30 million yen"],
              some ⟨some "03-1", [(some 1, some "u2"), (some 0, some "u1")]⟩⟩])).inserted
          = [d]
      ∧ (hatomark_scrape_page id id
          (fun u => if u = "u1" then some "images/hatomark/pid/a.jpg" else Option.none)
          (fun _ => "pid") "tokyo" []
          (HPage.listings
            [⟨"L2", "pt", "loc", [], ["30 million yen"],
              some ⟨some "03-1", [(some 1, some "u2"), (some 0, some "u1")]⟩⟩])).result
          = Except.ok (PyVal.boolV true))
    ∧ (∃ d2, niftyFinish id
          (fun u => if u = "u1" then some "images/hatomark/pid/a.jpg" else Option.none)
          "https://myhome.nifty.com/x" "tokyo" [("_id", PyVal.strV "n")] "pt"
          "30 million yen" "loc" Option.none ⟨some "tel", some ["t0", "u1", "u2"]⟩
        = Except.ok d2
      ∧ dictGet d2 "images"
          = some (PyVal.listV (((dedupFirst [] ["t0", "u1", "u2"]).map
              (fun u => if u = "u1" then some "images/hatomark/pid/a.jpg"
                else Option.none)).map optStrToPy))) :=
  C6_failed_image_saves_kept id id
    (fun u => if u = "u1" then some "images/hatomark/pid/a.jpg" else Option.none)
    (fun _ => "pid") "tokyo" []
    ⟨"L2", "pt", "loc", [], ["30 million yen"],
      some ⟨some "03-1", [(some 1, some "u2"), (some 0, some "u1")]⟩⟩
    ⟨some "03-1", [(some 1, some "u2"), (some 0, some "u1")]⟩
    rfl rfl (PyVal.numV (round2 (id 30000000))) (convert_usd_30m id)
    "https://myhome.nifty.com/x" "tokyo" [("_id", PyVal.strV "n")] "pt"
    "30 million yen" "loc" Option.none ⟨some "tel", some ["t0", "u1", "u2"]⟩
    ["t0", "u1", "u2"] (PyVal.numV (round2 (id 30000000))) (convert_usd_30m id)
    rfl rfl

/-! ## Claim C7 -/

/-- Claim C7 (confirmed): a backfill pass over a stored record with
exactly one image and a reachable link that finds two additional image
urls on the detail page and stores both successfully updates the
record's image list to length three — the original image first, then the
two new paths — and touches no other field of the record (the targeted
`$set` writes only `images`; the nifty updater's contact branch is
skipped because the stored contact is present).  Shown for both
backfills: updates/sumai.py `scrape_additional_images` and
nifty_updates.py `scrape_additional_data`. -/
theorem C7_backfill_appends_images
    (save : String → Option String)
    (pre post : List PyDict) (doc : PyDict) (pid l p q1 q2 u1 u2 : String)
    (d0 : Option (Option String))
    (hpre : ∀ r ∈ pre, hasId r pid = false) (hdocid : hasId doc pid = true)
    (hid : dictGet doc "_id" = some (PyVal.strV pid))
    (hlink : dictGet doc "link" = some (PyVal.strV l)) (hl : l ≠ "")
    (himgs : dictGet doc "images" = some (PyVal.listV [PyVal.strV p]))
    (hu1 : u1 ≠ "") (hu2 : u2 ≠ "")
    (hs1 : save u1 = some q1) (hs2 : save u2 = some q2)
    (pre2 post2 : List PyDict) (doc2 : PyDict)
    (pid2 l2 p2 c2 t0 v1 v2 r1 r2 : String)
    (hpre2 : ∀ r ∈ pre2, hasId r pid2 = false) (hdocid2 : hasId doc2 pid2 = true)
    (hid2 : dictGet doc2 "_id" = some (PyVal.strV pid2))
    (hlink2 : dictGet doc2 "link" = some (PyVal.strV l2)) (hl2 : l2 ≠ "")
    (hnifty : strContainsSub l2 "nifty" = true)
    (himgs2 : dictGet doc2 "images" = some (PyVal.listV [PyVal.strV p2]))
    (hcontact : dictGet doc2 "Contact Number" = some (PyVal.strV c2)) (hc2 : c2 ≠ "")
    (hdedup : dedupFirst [] [t0, v1, v2] = [t0, v1, v2])
    (hr1 : save v1 = some r1) (hr2 : save v2 = some r2) :
    sumai_scrape_additional_images save (pre ++ doc :: post) doc
        (SumaiUpdPage.imageDivs [d0, some (some u1), some (some u2)])
      = (PyVal.boolV true,
         pre ++ dictSet doc "images"
             (PyVal.listV [PyVal.strV p, PyVal.strV q1, PyVal.strV q2]) :: post)
    ∧ nifty_scrape_additional_data save (pre2 ++ doc2 :: post2) doc2
        (NiftyUpdPage.page Option.none (some [t0, v1, v2]))
      = (PyVal.boolV true,
         pre2 ++ dictSet doc2 "images"
             (PyVal.listV [PyVal.strV p2, PyVal.strV r1, PyVal.strV r2]) :: post2)
    ∧ dictGet (dictSet doc "images"
          (PyVal.listV [PyVal.strV p, PyVal.strV q1, PyVal.strV q2])) "images"
      = some (PyVal.listV [PyVal.strV p, PyVal.strV q1, PyVal.strV q2])
    ∧ (∀ k, k ≠ "images" →
        dictGet (dictSet doc "images"
            (PyVal.listV [PyVal.strV p, PyVal.strV q1, PyVal.strV q2])) k
          = dictGet doc k)
    ∧ (∀ k, k ≠ "images" →
        dictGet (dictSet doc2 "images"
            (PyVal.listV [PyVal.strV p2, PyVal.strV r1, PyVal.strV r2])) k
          = dictGet doc2 k) := by
  have hcol : sumaiUpdCollect save [some (some u1), some (some u2)] = [q1, q2] := by
    simp [sumaiUpdCollect, str_isEmpty_false u1 hu1, str_isEmpty_false u2 hu2, hs1, hs2]
  have hncol : niftyUpdCollect save [t0, v1, v2] = [r1, r2] := by
    simp [niftyUpdCollect, hdedup, hr1, hr2]
  refine ⟨?_, ?_, dictGet_dictSet_self _ _ _,
    fun k hk => dictGet_dictSet_ne doc "images" k _ hk,
    fun k hk => dictGet_dictSet_ne doc2 "images" k _ hk⟩
  · have hrun : sumai_scrape_additional_images save (pre ++ doc :: post) doc
        (SumaiUpdPage.imageDivs [d0, some (some u1), some (some u2)])
        = (PyVal.boolV true,
           update_one_set (pre ++ doc :: post) pid "images"
             (PyVal.listV [PyVal.strV p, PyVal.strV q1, PyVal.strV q2])) := by
      simp [sumai_scrape_additional_images, hlink, strV_truthy l hl, himgs, hid, hcol]
    rw [hrun, update_one_set_append pre post doc pid _ _ hpre hdocid]
  · have hrun : nifty_scrape_additional_data save (pre2 ++ doc2 :: post2) doc2
        (NiftyUpdPage.page Option.none (some [t0, v1, v2]))
        = (PyVal.boolV true,
           update_one_set (pre2 ++ doc2 :: post2) pid2 "images"
             (PyVal.listV [PyVal.strV p2, PyVal.strV r1, PyVal.strV r2])) := by
      simp [nifty_scrape_additional_data, hlink2, strV_truthy l2 hl2, himgs2, hid2,
        hcontact, strV_truthy c2 hc2, hnifty, hncol]
    rw [hrun, update_one_set_append pre2 post2 doc2 pid2 _ _ hpre2 hdocid2]

/-- Witness for C7_backfill_appends_images: one-record stores for both
backfills; both new urls save successfully and the stored list grows
from [p...] to three entries with the original first. -/
theorem C7_backfill_appends_images_witness :
    sumai_scrape_additional_images
        (fun u => if u = "u1" then some "q1" else if u = "u2" then some "q2"
          else if u = "v1" then some "r1" else if u = "v2" then some "r2"
          else Option.none)
        [[("_id", PyVal.strV "pid"), ("link", PyVal.strV "https://akiya.sumai.biz/L"),
          ("images", PyVal.listV [PyVal.strV "p0"])]]
        [("_id", PyVal.strV "pid"), ("link", PyVal.strV "https://akiya.sumai.biz/L"),
          ("images", PyVal.listV [PyVal.strV "p0"])]
        (SumaiUpdPage.imageDivs [Option.none, some (some "u1"), some (some "u2")])
      = (PyVal.boolV true,
         [dictSet [("_id", PyVal.strV "pid"),
            ("link", PyVal.strV "https://akiya.sumai.biz/L"),
            ("images", PyVal.listV [PyVal.strV "p0"])] "images"
           (PyVal.listV [PyVal.strV "p0", PyVal.strV "q1", PyVal.strV "q2"])])
    ∧ nifty_scrape_additional_data
        (fun u => if u = "u1" then some "q1" else if u = "u2" then some "q2"
          else if u = "v1" then some "r1" else if u = "v2" then some "r2"
          else Option.none)
        [[("_id", PyVal.strV "pid2"), ("link", PyVal.strV "https://myhome.nifty.com/L"),
          ("images", PyVal.listV [PyVal.strV "p2"]),
          ("Contact Number", PyVal.strV "03-1")]]
        [("_id", PyVal.strV "pid2"), ("link", PyVal.strV "https://myhome.nifty.com/L"),
          ("images", PyVal.listV [PyVal.strV "p2"]),
          ("Contact Number", PyVal.strV "03-1")]
        (NiftyUpdPage.page Option.none (some ["t0", "v1", "v2"]))
      = (PyVal.boolV true,
         [dictSet [("_id", PyVal.strV "pid2"),
            ("link", PyVal.strV "https://myhome.nifty.com/L"),
            ("images", PyVal.listV [PyVal.strV "p2"]),
            ("Contact Number", PyVal.strV "03-1")] "images"
           (PyVal.listV [PyVal.strV "p2", PyVal.strV "r1", PyVal.strV "r2"])]) := by
  have h := C7_backfill_appends_images
    (fun u => if u = "u1" then some "q1" else if u = "u2" then some "q2"
      else if u = "v1" then some "r1" else if u = "v2" then some "r2"
      else Option.none)
    [] []
    [("_id", PyVal.strV "pid"), ("link", PyVal.strV "https://akiya.sumai.biz/L"),
      ("images", PyVal.listV [PyVal.strV "p0"])]
    "pid" "https://akiya.sumai.biz/L" "p0" "q1" "q2" "u1" "u2" Option.none
    (fun r hr => absurd hr (List.not_mem_nil r)) rfl rfl rfl (by decide) rfl
    (by decide) (by decide) rfl rfl
    [] []
    [("_id", PyVal.strV "pid2"), ("link", PyVal.strV "https://myhome.nifty.com/L"),
      ("images", PyVal.listV [PyVal.strV "p2"]),
      ("Contact Number", PyVal.strV "03-1")]
    "pid2" "https://myhome.nifty.com/L" "p2" "03-1" "t0" "v1" "v2" "r1" "r2"
    (fun r hr => absurd hr (List.not_mem_nil r)) rfl rfl rfl (by decide)
    (by decide) rfl rfl (by decide) (by decide) rfl rfl
  exact ⟨h.1, h.2.1⟩
